import Mathlib

/-!
Verification of the core of the restic-exporter repository
(`src/exporter/exporter.py`, the modern exporter, and `src/restic-exporter.py`,
the legacy storagebox exporter) against its natural-language specification.

The Python source is shallowly embedded: pure functions become Lean functions,
the stateful stats cache becomes explicit state passing, Python dicts become
insertion-ordered association lists with in-place key update (matching CPython
dict semantics), Python floats/timestamps are modelled as exact rationals,
Python ints as Lean Int, and code that can raise returns Except.  External
collaborators (the restic subprocess, dateutil/datetime parsing routines) are
parameters of the embedding; every call to the restic subprocess is recorded in
an explicit call log.
-/

/-- Python's built-in round() on an exact rational: round half to even
(banker's rounding).  Python floats are modelled as exact rationals; the model
is exact wherever the float arithmetic is. -/
def pyRound (q : ℚ) : ℤ :=
  let f : ℤ := Int.floor q
  let r : ℚ := q - (f : ℚ)
  if r < 1/2 then f
  else if 1/2 < r then f + 1
  else if f % 2 = 0 then f else f + 1

/-- Specification predicate: m is a nearest integer to x, with ties broken
towards the even integer. -/
def NearestTiesEven (x : ℚ) (m : ℤ) : Prop :=
  |x - (m : ℚ)| < 1/2 ∨ (|x - (m : ℚ)| = 1/2 ∧ m % 2 = 0)

theorem pyRound_nearest (q : ℚ) : NearestTiesEven q (pyRound q) := by
  unfold pyRound NearestTiesEven
  set f : ℤ := Int.floor q with hf
  have hle : (f : ℚ) ≤ q := Int.floor_le q
  have hlt : q < (f : ℚ) + 1 := Int.lt_floor_add_one q
  set r : ℚ := q - (f : ℚ) with hr
  have hr0 : 0 ≤ r := by simp [hr]; linarith
  have hr1 : r < 1 := by simp [hr]; linarith
  by_cases h1 : r < 1/2
  · simp only [h1, if_true]
    left
    rw [abs_of_nonneg (by linarith)]
    linarith
  · by_cases h2 : 1/2 < r
    · simp only [h1, h2, if_false, if_true]
      left
      have : q - ((f + 1 : ℤ) : ℚ) = r - 1 := by push_cast; linarith
      rw [this, abs_of_nonpos (by linarith)]
      linarith
    · have heq : r = 1/2 := le_antisymm (not_lt.mp h2) (not_lt.mp h1)
      by_cases h3 : f % 2 = 0
      · simp only [h1, h2, h3, if_false, if_true]
        right
        constructor
        · rw [show q - (f : ℚ) = r from rfl, heq]
          simp
        · simp
      · simp only [h1, h2, h3, if_false]
        right
        constructor
        · have : q - ((f + 1 : ℤ) : ℚ) = r - 1 := by push_cast; linarith
          rw [this, heq]
          norm_num
        · omega

/-! ## Python dict model

CPython dicts preserve insertion order; updating an existing key keeps its
position.  We model a dict as an association list with that semantics. -/

/-- Lookup of a key in a dict (Python d[k] / k in d). -/
def dictGet {α : Type} (k : String) : List (String × α) → Option α
  | [] => none
  | (k2, v) :: rest => if k2 = k then some v else dictGet k rest

/-- Assignment d[k] = v: update in place if the key exists, else append. -/
def dictSet {α : Type} (k : String) (v : α) : List (String × α) → List (String × α)
  | [] => [(k, v)]
  | (k2, v2) :: rest => if k2 = k then (k, v) :: rest else (k2, v2) :: dictSet k v rest

/-- The counting idiom: if k not in d: d[k] = 1 else: d[k] += 1. -/
def dictIncr (d : List (String × Int)) (k : String) : List (String × Int) :=
  match dictGet k d with
  | none => dictSet k 1 d
  | some n => dictSet k (n + 1) d

/-- Python d.values(): the values in insertion order. -/
def dictValues {α : Type} (d : List (String × α)) : List α :=
  d.map Prod.snd

theorem dictGet_dictSet_self {α : Type} (k : String) (v : α) (d : List (String × α)) :
    dictGet k (dictSet k v d) = some v := by
  induction d with
  | nil => simp [dictGet, dictSet]
  | cons hd tl ih =>
    obtain ⟨k2, v2⟩ := hd
    by_cases h : k2 = k
    · simp [dictGet, dictSet, h]
    · simp [dictGet, dictSet, h, ih]

theorem dictGet_dictSet_ne {α : Type} (k k2 : String) (v : α) (d : List (String × α))
    (h : k2 ≠ k) : dictGet k (dictSet k2 v d) = dictGet k d := by
  induction d with
  | nil => simp [dictGet, dictSet, h]
  | cons hd tl ih =>
    obtain ⟨k3, v3⟩ := hd
    by_cases h3 : k3 = k2
    · subst h3
      simp [dictGet, dictSet, h]
    · by_cases h4 : k3 = k
      · subst h4
        have h5 : ¬k3 = k2 := h3
        simp [dictGet, dictSet, h5]
      · simp [dictGet, dictSet, h3, h4, ih]

/-! ## SHA-256 (hashlib.sha256(...).hexdigest())

A faithful implementation over byte lists; 32-bit words are Nat taken
modulo 2^32. -/

/-- Truncated addition modulo 2^32. -/
def add32 (a b : Nat) : Nat := (a + b) % 4294967296

/-- Right rotation of a 32-bit word. -/
def rotr32 (n x : Nat) : Nat :=
  ((x >>> n) ||| (x <<< (32 - n))) % 4294967296

/-- Bitwise complement within 32 bits. -/
def not32 (x : Nat) : Nat := 4294967295 - x

def sha256s0 (x : Nat) : Nat := rotr32 7 x ^^^ rotr32 18 x ^^^ (x >>> 3)

def sha256s1 (x : Nat) : Nat := rotr32 17 x ^^^ rotr32 19 x ^^^ (x >>> 10)

def sha256S0 (x : Nat) : Nat := rotr32 2 x ^^^ rotr32 13 x ^^^ rotr32 22 x

def sha256S1 (x : Nat) : Nat := rotr32 6 x ^^^ rotr32 11 x ^^^ rotr32 25 x

def sha256ch (x y z : Nat) : Nat := (x &&& y) ^^^ (not32 x &&& z)

def sha256maj (x y z : Nat) : Nat := (x &&& y) ^^^ (x &&& z) ^^^ (y &&& z)

/-- The 64 SHA-256 round constants (FIPS 180-4, written in decimal). -/
def sha256K : List Nat :=
  [1116352408, 1899447441, 3049323471, 3921009573, 961987163,
   1508970993, 2453635748, 2870763221, 3624381080, 310598401,
   607225278, 1426881987, 1925078388, 2162078206, 2614888103,
   3248222580, 3835390401, 4022224774, 264347078, 604807628,
   770255983, 1249150122, 1555081692, 1996064986, 2554220882,
   2821834349, 2952996808, 3210313671, 3336571891, 3584528711,
   113926993, 338241895, 666307205, 773529912, 1294757372,
   1396182291, 1695183700, 1986661051, 2177026350, 2456956037,
   2730485921, 2820302411, 3259730800, 3345764771, 3516065817,
   3600352804, 4094571909, 275423344, 430227734, 506948616,
   659060556, 883997877, 958139571, 1322822218, 1537002063,
   1747873779, 1955562222, 2024104815, 2227730452, 2361852424,
   2428436474, 2756734187, 3204031479, 3329325298]

/-- The initial SHA-256 state (FIPS 180-4, written in decimal). -/
def sha256H0 : List Nat :=
  [1779033703, 3144134277, 1013904242, 2773480762, 1359893119,
   2600822924, 528734635, 1541459225]

/-- Big-endian bytes of a value, fixed width. -/
def beBytes : Nat → Nat → List Nat
  | 0, _ => []
  | n + 1, v => (v >>> (8 * n)) % 256 :: beBytes n v

/-- SHA-256 message padding: append 0x80, zero padding, and the 64-bit
big-endian bit length. -/
def sha256pad (msg : List Nat) : List Nat :=
  let padLen := (120 - (msg.length + 1) % 64) % 64
  msg ++ [0x80] ++ List.replicate padLen 0 ++ beBytes 8 (8 * msg.length)

/-- Group a list of bytes into big-endian 32-bit words. -/
def bytesToWords : List Nat → List Nat
  | b0 :: b1 :: b2 :: b3 :: rest =>
    (b0 <<< 24 ||| b1 <<< 16 ||| b2 <<< 8 ||| b3) :: bytesToWords rest
  | _ => []

/-- Split a list into chunks of 64 elements (fuel-driven structural
recursion; the fuel is the list length, which bounds the chunk count). -/
def chunks64Go {α : Type} : Nat → List α → List (List α)
  | _, [] => []
  | 0, _ :: _ => []
  | fuel + 1, a :: rest => ((a :: rest).take 64) :: chunks64Go fuel ((a :: rest).drop 64)

/-- Split a list into chunks of 64 elements. -/
def chunks64 {α : Type} (l : List α) : List (List α) :=
  chunks64Go l.length l

/-- Extend the 16-word message schedule to 64 words (n = remaining rounds). -/
def sha256extend : Nat → List Nat → List Nat
  | 0, ws => ws
  | n + 1, ws =>
    let w2 := ws.getD (ws.length - 2) 0
    let w7 := ws.getD (ws.length - 7) 0
    let w15 := ws.getD (ws.length - 15) 0
    let w16 := ws.getD (ws.length - 16) 0
    sha256extend n (ws ++ [add32 (add32 (sha256s1 w2) w7) (add32 (sha256s0 w15) w16)])

/-- One round of the SHA-256 compression function. -/
def sha256round (st : List Nat) (wk : Nat × Nat) : List Nat :=
  match st with
  | [a, b, c, d, e, f, g, h] =>
    let t1 := add32 (add32 h (sha256S1 e)) (add32 (add32 (sha256ch e f g) wk.2) wk.1)
    let t2 := add32 (sha256S0 a) (sha256maj a b c)
    [add32 t1 t2, a, b, c, add32 d t1, e, f, g]
  | other => other

/-- Process one 64-byte block into the running state. -/
def sha256block (st : List Nat) (block : List Nat) : List Nat :=
  let w := sha256extend 48 (bytesToWords block)
  let out := (w.zip sha256K).foldl sha256round st
  List.zipWith add32 st out

/-- SHA-256 of a byte list: the 8 words of the digest. -/
def sha256words (msg : List Nat) : List Nat :=
  (chunks64 (sha256pad msg)).foldl sha256block sha256H0

/-- Lowercase hexadecimal digit. -/
def hexChar (n : Nat) : Char :=
  if n < 10 then Char.ofNat (48 + n) else Char.ofNat (87 + n)

/-- Lowercase hexadecimal rendering of a 32-bit word, 8 digits. -/
def wordHex (w : Nat) : List Char :=
  [hexChar ((w >>> 28) % 16), hexChar ((w >>> 24) % 16), hexChar ((w >>> 20) % 16),
   hexChar ((w >>> 16) % 16), hexChar ((w >>> 12) % 16), hexChar ((w >>> 8) % 16),
   hexChar ((w >>> 4) % 16), hexChar (w % 16)]

/-- UTF-8 encoding of one Unicode code point. -/
def charUtf8 (c : Char) : List Nat :=
  let n := c.toNat
  if n < 0x80 then [n]
  else if n < 0x800 then [0xC0 ||| (n >>> 6), 0x80 ||| (n &&& 0x3F)]
  else if n < 0x10000 then
    [0xE0 ||| (n >>> 12), 0x80 ||| ((n >>> 6) &&& 0x3F), 0x80 ||| (n &&& 0x3F)]
  else
    [0xF0 ||| (n >>> 18), 0x80 ||| ((n >>> 12) &&& 0x3F), 0x80 ||| ((n >>> 6) &&& 0x3F),
     0x80 ||| (n &&& 0x3F)]

/-- text.encode("utf-8") as a byte list. -/
def utf8Bytes (s : String) : List Nat :=
  (s.data.map charUtf8).flatten

/-- hashlib.sha256(text.encode("utf-8")).hexdigest(). -/
def sha256hex (s : String) : String :=
  String.mk (((sha256words (utf8Bytes s)).map wordHex).flatten)

namespace Exporter

/-! ## Embedding of src/exporter/exporter.py

Raw decoded JSON records have optional fields (Python dict access raises
KeyError when a required field is missing; .get supplies a default).  The
restic subprocess and the datetime library routines are collaborators and
appear as fields of Env; each subprocess invocation is recorded as a Call. -/

/-- Raw decoded "summary" object of a snapshot record. -/
structure RawSummary where
  backup_start : Option String
  backup_end : Option String
  total_bytes_processed : Option Int
  total_files_processed : Option Int
  files_new : Option Int
  files_changed : Option Int
  files_unmodified : Option Int
  dirs_new : Option Int
  dirs_changed : Option Int
  dirs_unmodified : Option Int
  data_added : Option Int
  deriving DecidableEq

/-- Raw decoded snapshot record, as returned by restic snapshots --json. -/
structure RawSnap where
  time : Option String
  hostname : Option String
  username : Option String
  paths : Option (List String)
  id : Option String
  short_id : Option String
  tags : Option (List String)
  program_version : Option String
  summary : Option RawSummary
  deriving DecidableEq

/-- ResticStats dataclass. -/
structure ResticStats where
  total_size : Int
  total_file_count : Int
  files_new : Int
  files_changed : Int
  files_unmodified : Int
  dirs_new : Int
  dirs_changed : Int
  dirs_unmodified : Int
  data_added : Int
  duration : ℚ
  deriving DecidableEq

/-- ResticSnapshot dataclass. -/
structure ResticSnapshot where
  time : String
  hostname : String
  username : String
  paths : List String
  id : String
  short_id : String
  tags : List String
  program_version : String
  hash : String
  timestamp : ℚ
  stats : Option ResticStats
  deriving DecidableEq

/-- ResticClient dataclass. -/
structure ResticClient where
  hostname : String
  username : String
  version : String
  snapshot_hash : String
  snapshot_tag : String
  snapshot_tags : String
  snapshot_paths : String
  timestamp : ℚ
  snapshots_total : Int
  stats : ResticStats
  deriving DecidableEq

/-- ResticGlobalStats dataclass. -/
structure ResticGlobalStats where
  total_size : Int
  total_uncompressed_size : Int
  compression_ratio : ℚ
  total_blob_count : Int
  total_snapshots_count : Int
  deriving DecidableEq

/-- ResticMetrics dataclass.  The wall-clock duration field is not modelled
(real time is outside the embedding). -/
structure ResticMetrics where
  check_success : Int
  locks_total : Int
  clients : List ResticClient
  global_stats : ResticGlobalStats
  deriving DecidableEq

/-- Python exceptions of the pipeline, named after the taxonomy of the spec:
KeyError on a missing dict key is malformedData, a failed datetime parse is
timestampParse. -/
inductive PyError where
  | malformedData
  | timestampParse
  deriving DecidableEq

/-- One invocation of the restic subprocess. -/
inductive Call where
  | snapshots (onlyLatest : Bool)
  | stats (id : Option String) (rawMode : Bool)
  | check
  | locks
  deriving DecidableEq

/-- Decoded output of restic stats --mode raw-data. -/
structure StatsRawData where
  total_size : Int
  total_uncompressed_size : Int
  compression_ratio : ℚ
  total_blob_count : Int
  snapshots_count : Int

/-- Decoded output of restic stats for a single snapshot. -/
structure StatsLegacyData where
  total_size : Int
  total_file_count : Int

/-- Collaborator environment: responses of the restic subprocess and the
datetime-library parsing routines.  mktimeIso models
time.mktime(datetime.datetime.fromisoformat(s).timetuple()) as one composite
collaborator (whole-second local-time epoch value); fromisoDelta models
datetime.datetime.fromisoformat(s) as an absolute instant in seconds, used
only to subtract backup_end - backup_start. -/
structure Env where
  snapshotsAll : List RawSnap
  snapshotsLatest : List RawSnap
  statsRaw : StatsRawData
  statsById : String → StatsLegacyData
  checkOk : Bool
  locksOutput : List String
  mktimeIso : String → Option ℚ
  fromisoDelta : String → Option ℚ

/-- Exporter feature-toggle configuration. -/
structure Config where
  disable_check : Bool
  disable_global_stats : Bool
  disable_legacy_stats : Bool
  disable_locks : Bool
  include_paths : Bool

/-- calc_snapshot_hash: sha256 hex digest of hostname + username (default "")
+ comma-joined paths; hostname and paths are required dict keys. -/
def calc_snapshot_hash (snapshot : RawSnap) : Except PyError String :=
  match snapshot.hostname with
  | none => .error .malformedData
  | some h =>
    match snapshot.paths with
    | none => .error .malformedData
    | some ps => .ok (sha256hex (h ++ snapshot.username.getD "" ++ String.intercalate "," ps))

/-- calc_snapshot_timestamp: time.mktime(fromisoformat(snapshot["time"]).timetuple());
the record must carry "time" and the string must parse. -/
def calc_snapshot_timestamp (env : Env) (snapshot : RawSnap) : Except PyError ℚ :=
  match snapshot.time with
  | none => .error .malformedData
  | some t =>
    match env.mktimeIso t with
    | none => .error .timestampParse
    | some q => .ok q

/-- calc_snapshot_stats: derive ResticStats from the embedded summary, or none
if the record carries no summary.  Each count field independently defaults
to -1; duration is backup_end - backup_start when both bounds are present,
else -1.  A present but unparsable bound raises (fromisoformat ValueError). -/
def calc_snapshot_stats (env : Env) (snapshot : RawSnap) :
    Except PyError (Option ResticStats) :=
  match snapshot.summary with
  | none => .ok none
  | some summary =>
    let mkStats : ℚ → Option ResticStats := fun duration =>
      some
        { total_size := summary.total_bytes_processed.getD (-1)
          total_file_count := summary.total_files_processed.getD (-1)
          files_new := summary.files_new.getD (-1)
          files_changed := summary.files_changed.getD (-1)
          files_unmodified := summary.files_unmodified.getD (-1)
          dirs_new := summary.dirs_new.getD (-1)
          dirs_changed := summary.dirs_changed.getD (-1)
          dirs_unmodified := summary.dirs_unmodified.getD (-1)
          data_added := summary.data_added.getD (-1)
          duration := duration }
    match summary.backup_start, summary.backup_end with
    | some bs, some be =>
      match env.fromisoDelta bs with
      | none => .error .timestampParse
      | some s =>
        match env.fromisoDelta be with
        | none => .error .timestampParse
        | some e => .ok (mkStats (e - s))
    | _, _ => .ok (mkStats (-1))

/-- Normalization of one raw record into a ResticSnapshot, in source order:
hash, timestamp, stats, then the remaining constructor fields (id and
short_id are also required keys). -/
def normalizeSnap (env : Env) (snap_data : RawSnap) : Except PyError ResticSnapshot :=
  match calc_snapshot_hash snap_data with
  | .error e => .error e
  | .ok snapshot_hash =>
    match calc_snapshot_timestamp env snap_data with
    | .error e => .error e
    | .ok snap_timestamp =>
      match calc_snapshot_stats env snap_data with
      | .error e => .error e
      | .ok snap_stats =>
        match snap_data.time with
        | none => .error .malformedData
        | some t =>
          match snap_data.hostname with
          | none => .error .malformedData
          | some h =>
            match snap_data.id with
            | none => .error .malformedData
            | some i =>
              match snap_data.short_id with
              | none => .error .malformedData
              | some si =>
                .ok
                  { time := t
                    hostname := h
                    username := snap_data.username.getD ""
                    paths := snap_data.paths.getD []
                    id := i
                    short_id := si
                    tags := snap_data.tags.getD []
                    program_version := snap_data.program_version.getD ""
                    hash := snapshot_hash
                    timestamp := snap_timestamp
                    stats := snap_stats }

/-- Hash-counting fold of get_snapshots_counters. -/
def countersAux : List RawSnap → List (String × Int) → Except PyError (List (String × Int))
  | [], d => .ok d
  | r :: rest, d =>
    match calc_snapshot_hash r with
    | .error e => .error e
    | .ok h => countersAux rest (dictIncr d h)

/-- get_snapshots_counters: one restic snapshots call over the full history,
then count records per hash. -/
def get_snapshots_counters (env : Env) :
    Except PyError (List (String × Int)) × List Call :=
  (countersAux env.snapshotsAll [], [Call.snapshots false])

/-- Except-valued map used by get_latest_snapshots. -/
def normalizeAll (env : Env) : List RawSnap → Except PyError (List ResticSnapshot)
  | [] => .ok []
  | r :: rest =>
    match normalizeSnap env r with
    | .error e => .error e
    | .ok s =>
      match normalizeAll env rest with
      | .error e => .error e
      | .ok ss => .ok (s :: ss)

/-- get_latest_snapshots: one restic snapshots --latest 1 call, then
normalization of every record. -/
def get_latest_snapshots (env : Env) :
    Except PyError (List ResticSnapshot) × List Call :=
  (normalizeAll env env.snapshotsLatest, [Call.snapshots true])

/-- The latest-per-hash deduplication loop of get_metrics: keep the stored
snapshot unless the incoming one has a strictly greater timestamp. -/
def dedupStep (d : List (String × ResticSnapshot)) (snap : ResticSnapshot) :
    List (String × ResticSnapshot) :=
  match dictGet snap.hash d with
  | none => dictSet snap.hash snap d
  | some cur => if cur.timestamp < snap.timestamp then dictSet snap.hash snap d else d

/-- Deduplicated map from hash to latest snapshot. -/
def dedupLatest (snaps : List ResticSnapshot) : List (String × ResticSnapshot) :=
  snaps.foldl dedupStep []

/-- All-sentinel per-snapshot stats. -/
def sentinelStats : ResticStats :=
  { total_size := -1, total_file_count := -1, files_new := -1, files_changed := -1,
    files_unmodified := -1, dirs_new := -1, dirs_changed := -1, dirs_unmodified := -1,
    data_added := -1, duration := -1 }

/-- Stats object built by get_stats_legacy from the collaborator data:
total_size and total_file_count from restic stats, every other field keeps
the sentinel value. -/
def legacyFetched (env : Env) (snapshot_id : String) : ResticStats :=
  { sentinelStats with total_size := (env.statsById snapshot_id).total_size,
                       total_file_count := (env.statsById snapshot_id).total_file_count }

/-- get_stats_legacy: sentinel when disabled; else serve from the cache, or
invoke restic stats once and write the cache. -/
def get_stats_legacy (cfg : Config) (env : Env) (cache : List (String × ResticStats))
    (snapshot_id : String) : ResticStats × List (String × ResticStats) × List Call :=
  if cfg.disable_legacy_stats then (sentinelStats, cache, [])
  else
    match dictGet snapshot_id cache with
    | some v => (v, cache, [])
    | none =>
      (legacyFetched env snapshot_id,
       dictSet snapshot_id (legacyFetched env snapshot_id) cache,
       [Call.stats (some snapshot_id) false])

/-- All-sentinel global stats. -/
def sentinelGlobalStats : ResticGlobalStats :=
  { total_size := -1, total_uncompressed_size := -1, compression_ratio := -1,
    total_blob_count := -1, total_snapshots_count := -1 }

/-- get_stats_global: sentinel when disabled, else one restic stats
--mode raw-data call. -/
def get_stats_global (cfg : Config) (env : Env) : ResticGlobalStats × List Call :=
  if cfg.disable_global_stats then (sentinelGlobalStats, [])
  else
    ({ total_size := env.statsRaw.total_size
       total_uncompressed_size := env.statsRaw.total_uncompressed_size
       compression_ratio := env.statsRaw.compression_ratio
       total_blob_count := env.statsRaw.total_blob_count
       total_snapshots_count := env.statsRaw.snapshots_count },
     [Call.stats none true])

/-- get_check: 1 when restic check exits 0, else 0 (logged, never fatal). -/
def get_check (env : Env) : Int × List Call :=
  (if env.checkOk then 1 else 0, [Call.check])

/-- A stdout line counted by get_locks: re.match("^[a-z0-9]+$", line). -/
def isLockLine (line : String) : Bool :=
  !line.isEmpty && line.all (fun c => c.isLower || c.isDigit)

/-- get_locks: count of matching stdout lines of restic list locks. -/
def get_locks (env : Env) : Int × List Call :=
  (((env.locksOutput.filter isLockLine).length : Int), [Call.locks])

/-- Client-profile construction for one latest snapshot. -/
def mkClient (cfg : Config) (snap : ResticSnapshot) (stats : ResticStats)
    (total : Int) : ResticClient :=
  { hostname := snap.hostname
    username := snap.username
    version := snap.program_version
    snapshot_hash := snap.hash
    snapshot_tag := snap.tags.headD ""
    snapshot_tags := String.intercalate "," snap.tags
    snapshot_paths := if cfg.include_paths then String.intercalate "," snap.paths else ""
    timestamp := snap.timestamp
    snapshots_total := total
    stats := stats }

/-- The clients loop of get_metrics: per snapshot, embedded stats if present,
else the legacy resolver (threading the cache); then the counter lookup
(KeyError if the hash is absent from the full-history counter). -/
def clientsLoop (cfg : Config) (env : Env) (counter : List (String × Int)) :
    List ResticSnapshot → List (String × ResticStats) →
    Except PyError (List ResticClient) × List (String × ResticStats) × List Call
  | [], cache => (.ok [], cache, [])
  | snap :: rest, cache =>
    let fetched :=
      match snap.stats with
      | some s => (s, cache, ([] : List Call))
      | none => get_stats_legacy cfg env cache snap.id
    match dictGet snap.hash counter with
    | none => (.error .malformedData, fetched.2.1, fetched.2.2)
    | some total =>
      match clientsLoop cfg env counter rest fetched.2.1 with
      | (.ok cs, cache2, log2) =>
        (.ok (mkClient cfg snap fetched.1 total :: cs), cache2, fetched.2.2 ++ log2)
      | (.error e, cache2, log2) => (.error e, cache2, fetched.2.2 ++ log2)

/-- get_metrics: counters over the full history, latest snapshots, per-hash
deduplication, the clients loop, then global stats, check and locks with
their disabled-signal sentinels. -/
def get_metrics (cfg : Config) (env : Env) (cache0 : List (String × ResticStats)) :
    Except PyError ResticMetrics × List (String × ResticStats) × List Call :=
  let countersRun := get_snapshots_counters env
  match countersRun.1 with
  | .error e => (.error e, cache0, countersRun.2)
  | .ok counter =>
    let latestRun := get_latest_snapshots env
    match latestRun.1 with
    | .error e => (.error e, cache0, countersRun.2 ++ latestRun.2)
    | .ok latest_dup =>
      let latest := dedupLatest latest_dup
      match clientsLoop cfg env counter (dictValues latest) cache0 with
      | (.error e, cache1, logC) =>
        (.error e, cache1, countersRun.2 ++ latestRun.2 ++ logC)
      | (.ok clients, cache1, logC) =>
        let globalRun := get_stats_global cfg env
        let checkRun := if cfg.disable_check then ((2 : Int), ([] : List Call)) else get_check env
        let locksRun := if cfg.disable_locks then ((0 : Int), ([] : List Call)) else get_locks env
        (.ok { check_success := checkRun.1, locks_total := locksRun.1,
               clients := clients, global_stats := globalRun.1 },
         cache1,
         countersRun.2 ++ latestRun.2 ++ logC ++ globalRun.2 ++ checkRun.2 ++ locksRun.2)

/-- refresh: a successful pass publishes a fresh metrics snapshot; a failed
pass keeps the previously published one (cache mutations survive). -/
def refresh (cfg : Config) (env : Env) (prev : Option ResticMetrics)
    (cache0 : List (String × ResticStats)) :
    Option ResticMetrics × List (String × ResticStats) :=
  match get_metrics cfg env cache0 with
  | (.ok m, cache1, _) => (some m, cache1)
  | (.error _, cache1, _) => (prev, cache1)

/-- Clients of a get_metrics run (empty on a failed pass); used to state
concrete evaluations. -/
def clientsOf (r : Except PyError ResticMetrics × List (String × ResticStats) × List Call) :
    List ResticClient :=
  match r.1 with
  | .ok m => m.clients
  | .error _ => []

end Exporter

namespace Legacy

/-! ## Embedding of src/restic-exporter.py (retention evaluation and
timestamp parsing)

The retention-policy portion of ResticCollector._parse_metrics.  Snapshot
records enter with the exact rational value produced by the dateutil parse
(ptime); the code stores str(round(...)) per snapshot and compares the float
of that string, i.e. the rounded value.  The datetime/strftime bucketing of
SLA-tagged snapshots inside the tag loop (timezone- and calendar-dependent)
is passed in as the slaFound collaborator summary; it is only consulted when
an "SLA" tag occurs in the history. -/

/-- One historical snapshot as consumed by the retention evaluator. -/
structure LSnap where
  id : String
  hash : String
  tags : List String
  ptime : ℚ
  deriving DecidableEq

/-- datetime.now().astimezone(): epoch seconds and local hour-of-day. -/
structure Today where
  ts : ℚ
  hour : ℕ
  deriving DecidableEq

/-- One entry of snap_by_type_retention_policy. -/
structure RetEntry where
  policy : Int
  expected : Int
  found : Int
  deriving DecidableEq

/-- The snap_by_type_retention_policy dict, one entry per category. -/
structure RetBuckets where
  manual : RetEntry
  update : RetEntry
  hourly : RetEntry
  daily : RetEntry
  weekly : RetEntry
  monthly : RetEntry
  yearly : RetEntry
  deriving DecidableEq

/-- Result of the SLA bucket classification (the datetime/strftime loop over
SLA-tagged snapshots): the hourly increment and the distinct-bucket counts
assigned to daily/weekly/monthly/yearly found. -/
structure SlaFound where
  hourly : Int
  daily : Int
  weekly : Int
  monthly : Int
  yearly : Int
  deriving DecidableEq

/-- retention_policy.get(name, default). -/
def policyGet (p : List (String × Int)) (name : String) (default : Int) : Int :=
  (dictGet name p).getD default

/-- Oldest-snapshot anchor: starts at today's timestamp and is lowered by
every strictly smaller rounded snapshot timestamp. -/
def oldestSnapshot (todayTs : ℚ) (snaps : List LSnap) : ℚ :=
  snaps.foldl
    (fun acc s => if ((pyRound s.ptime : ℤ) : ℚ) < acc then ((pyRound s.ptime : ℤ) : ℚ) else acc)
    todayTs

/-- snap_by_type_total_counter: per-tag counts over the full history. -/
def tagCounter (snaps : List LSnap) : List (String × Int) :=
  snaps.foldl (fun d s => s.tags.foldl dictIncr d) []

/-- max_daily_snaps = round(elapsed / timedelta(days=1).total_seconds()). -/
def max_daily_snaps (elapsed : ℚ) : Int := pyRound (elapsed / 86400)

/-- max_weekly_snaps: rounded week count, but only when at least 7 seconds
(sic) have elapsed. -/
def max_weekly_snaps (elapsed : ℚ) : Int :=
  if 7 ≤ elapsed then pyRound (elapsed / 604800) else 0

/-- max_monthly_snaps: rounded 30-day count, but only when at least 30
seconds (sic) have elapsed. -/
def max_monthly_snaps (elapsed : ℚ) : Int :=
  if 30 ≤ elapsed then pyRound (elapsed / 2592000) else 0

/-- max_yearly_snaps: rounded 365-day count, but only when at least 365
seconds (sic) have elapsed. -/
def max_yearly_snaps (elapsed : ℚ) : Int :=
  if 365 ≤ elapsed then pyRound (elapsed / 31536000) else 0

/-- Expected hourly backups: one for each hour of [0, today.hour] that lies
in the configured backup_times list. -/
def expectedHourly (backup_times : List Int) (hour : ℕ) : Int :=
  (((List.range (hour + 1)).filter (fun h => backup_times.contains (h : Int))).length : Int)

/-- The found-count loop body over one (tag, count) item of the tag counter. -/
def applyTagFound (sla : SlaFound) (b : RetBuckets) (kv : String × Int) : RetBuckets :=
  let b1 :=
    if kv.1 = "manual" ∨ kv.1 = "pre-restore" then
      { b with manual := { b.manual with found := b.manual.found + kv.2 } }
    else b
  let b2 :=
    if kv.1 = "update" ∨ kv.1 = "sync-envs" then
      { b1 with update := { b1.update with found := b1.update.found + kv.2 } }
    else b1
  if kv.1 = "SLA" then
    { b2 with
      hourly := { b2.hourly with found := b2.hourly.found + sla.hourly }
      daily := { b2.daily with found := sla.daily }
      weekly := { b2.weekly with found := sla.weekly }
      monthly := { b2.monthly with found := sla.monthly }
      yearly := { b2.yearly with found := sla.yearly } }
  else b2

/-- The retention evaluator of _parse_metrics: initial buckets from the
policy map, expected counts from the elapsed time since the oldest snapshot
(hourly from the clock and backup_times), then the found-count loop over the
per-tag counter. -/
def retention (today : Today) (policy : List (String × Int)) (backup_times : List Int)
    (snaps : List LSnap) (sla : SlaFound) : RetBuckets :=
  let mk : String → RetEntry := fun name =>
    { policy := policyGet policy name 0, expected := 0, found := 0 }
  let oldest := oldestSnapshot today.ts snaps
  let elapsed := today.ts - oldest
  let init : RetBuckets :=
    { manual := mk "manual"
      update := mk "update"
      hourly := { mk "hourly" with expected := expectedHourly backup_times today.hour }
      daily := { mk "daily" with
                 expected := min (max_daily_snaps elapsed) (policyGet policy "daily" 0) }
      weekly := { mk "weekly" with
                  expected := min (max_weekly_snaps elapsed) (policyGet policy "weekly" 0) }
      monthly := { mk "monthly" with
                   expected := min (max_monthly_snaps elapsed) (policyGet policy "monthly" 0) }
      yearly := { mk "yearly" with
                  expected := min (max_yearly_snaps elapsed) (policyGet policy "yearly" 0) } }
  (tagCounter snaps).foldl (applyTagFound sla) init

/-- Retention-state gauge of collect(): int(expected <= found). -/
def satisfied (e : RetEntry) : Bool :=
  e.expected ≤ e.found

/-- Exceptions raised by _parse_timestamp. -/
inductive ParseFailure where
  | typeErrorInFinally
  deriving DecidableEq

/-- _parse_timestamp: try dateutil.parser.parse (the st1 collaborator); on
success the finally clause returns str(round(value)), modelled by its numeric
value.  On failure the except branch reads the undefined name snap, raising
NameError, and the finally clause then evaluates round(None), replacing it
with a TypeError: the regex fallback documented in the comments can never
run, whatever the input. -/
def parse_timestamp (st1 : String → Option ℚ) (timestamp : String) :
    Except ParseFailure Int :=
  match st1 timestamp with
  | some v => .ok (pyRound v)
  | none => .error .typeErrorInFinally

end Legacy

/-! ## Claim C1: the snapshot hash -/

/-- C1 (counterexample): the claimed iff fails.  Two records that disagree
componentwise on (hostname, username) — hostname "ab" with empty username
versus hostname "a" with username "b" — concatenate to the same text "abp"
and therefore receive the same SHA-256 hash. -/
theorem c1_hash_iff_counterexample :
    Exporter.calc_snapshot_hash
        { time := some "t", hostname := some "ab", username := some "", paths := some ["p"],
          id := some "i", short_id := some "i", tags := none, program_version := none,
          summary := none } =
      Exporter.calc_snapshot_hash
        { time := some "t", hostname := some "a", username := some "b", paths := some ["p"],
          id := some "i", short_id := some "i", tags := none, program_version := none,
          summary := none } ∧
    ¬((("ab" : String), ("" : String), (["p"] : List String)) =
      (("a" : String), ("b" : String), (["p"] : List String))) := by
  constructor
  · rfl
  · decide

/-- C1 (amended): the hash is a deterministic function of (hostname,
username, ordered paths): records that agree on these three components
receive equal hashes.  The converse implication of the claim is false, since
the hash depends only on the concatenated text hostname + username +
comma-joined paths, which does not determine the components. -/
theorem c1_hash_deterministic (r1 r2 : Exporter.RawSnap)
    (hh : r1.hostname = r2.hostname) (hu : r1.username = r2.username)
    (hp : r1.paths = r2.paths) :
    Exporter.calc_snapshot_hash r1 = Exporter.calc_snapshot_hash r2 := by
  unfold Exporter.calc_snapshot_hash
  rw [hh, hu, hp]

/-- Witness for c1_hash_deterministic at two concrete records that agree on
hostname, username and paths but differ in id. -/
theorem c1_hash_deterministic_witness :
    Exporter.calc_snapshot_hash
        { time := some "t", hostname := some "hostA", username := some "u", paths := some ["/x"],
          id := some "i1", short_id := some "i1", tags := none, program_version := none,
          summary := none } =
      Exporter.calc_snapshot_hash
        { time := some "t2", hostname := some "hostA", username := some "u", paths := some ["/x"],
          id := some "i2", short_id := some "i2", tags := none, program_version := none,
          summary := none } :=
  c1_hash_deterministic _ _ rfl rfl rfl

/-! ## Claim C9: timestamp parsing strategies -/

/-- C9: _parse_timestamp behaviour at a failing input.  When the first
strategy (dateutil.parser.parse) rejects the string, the code crashes — the
except branch reads the undefined name snap (NameError) and the finally
clause then evaluates round(None) (TypeError) — so the documented regex
fallback strategy can never run and no clean TimestampParseError is raised;
when the first strategy succeeds it wins and the rounded value is
returned. -/
theorem c9_fallback_never_runs :
    Legacy.parse_timestamp (fun _ => none) "not-a-date" =
      .error .typeErrorInFinally ∧
    Legacy.parse_timestamp (fun s => if s = "2024-01-01T03:00:00" then some 5 else none)
        "2024-01-01T03:00:00" = .ok 5 := by
  constructor
  · rfl
  · show Except.ok (pyRound 5) = Except.ok 5
    norm_num [pyRound]

/-! ## Claim C5: per-hash counts sum to the history length -/

theorem dictValues_dictSet_of_get_none {α : Type} (k : String) (v : α)
    (d : List (String × α)) (h : dictGet k d = none) :
    dictValues (dictSet k v d) = dictValues d ++ [v] := by
  induction d with
  | nil => simp [dictGet, dictSet, dictValues]
  | cons hd tl ih =>
    obtain ⟨k2, v2⟩ := hd
    by_cases h2 : k2 = k
    · simp [dictGet, h2] at h
    · simp [dictGet, h2] at h
      simp [dictSet, dictValues, h2] at ih ⊢
      exact ih h

theorem sum_dictSet_of_get_some (k : String) (n m : Int) (d : List (String × Int))
    (h : dictGet k d = some n) :
    (dictValues (dictSet k m d)).sum = (dictValues d).sum - n + m := by
  induction d with
  | nil => simp [dictGet] at h
  | cons hd tl ih =>
    obtain ⟨k2, v2⟩ := hd
    by_cases h2 : k2 = k
    · simp [dictGet, h2] at h
      subst h
      simp [dictSet, dictValues, h2]
      ring
    · simp [dictGet, h2] at h
      simp [dictSet, dictValues, h2] at ih ⊢
      have := ih h
      omega

theorem sum_dictIncr (d : List (String × Int)) (k : String) :
    (dictValues (dictIncr d k)).sum = (dictValues d).sum + 1 := by
  rcases h : dictGet k d with _ | n
  · simp [dictIncr, h, dictValues_dictSet_of_get_none k 1 d h]
  · simp [dictIncr, h, sum_dictSet_of_get_some k n (n + 1) d h]
    omega

theorem countersAux_sum : ∀ (l : List Exporter.RawSnap) (d c : List (String × Int)),
    Exporter.countersAux l d = .ok c →
    (dictValues c).sum = (dictValues d).sum + (l.length : Int) := by
  intro l
  induction l with
  | nil =>
    intro d c h
    simp [Exporter.countersAux] at h
    subst h
    simp
  | cons r rest ih =>
    intro d c h
    rcases hh : Exporter.calc_snapshot_hash r with e | hv
    · simp [Exporter.countersAux, hh] at h
    · simp only [Exporter.countersAux, hh] at h
      have := ih (dictIncr d hv) c h
      rw [this, sum_dictIncr]
      simp only [List.length_cons]
      push_cast
      ring

/-- C5: for every list of historical snapshot records that the counter
accepts, the sum of the per-hash counts equals the length of the full
historical snapshot list. -/
theorem c5_counts_sum_to_length (env : Exporter.Env) (c : List (String × Int))
    (log : List Exporter.Call)
    (h : Exporter.get_snapshots_counters env = (.ok c, log)) :
    (dictValues c).sum = (env.snapshotsAll.length : Int) := by
  have h1 : Exporter.countersAux env.snapshotsAll [] = .ok c := by
    have := congrArg Prod.fst h
    simpa [Exporter.get_snapshots_counters] using this
  have := countersAux_sum env.snapshotsAll [] c h1
  simpa [dictValues] using this

/-- Environment used by the witness of c5_counts_sum_to_length. -/
def c5env : Exporter.Env :=
  { snapshotsAll := [{ time := some "t100", hostname := some "A", username := none,
                       paths := some ["p"], id := some "a1", short_id := some "a1",
                       tags := none, program_version := none, summary := none }]
    snapshotsLatest := []
    statsRaw := ⟨0, 0, 0, 0, 0⟩
    statsById := fun _ => ⟨0, 0⟩
    checkOk := true
    locksOutput := []
    mktimeIso := fun _ => none
    fromisoDelta := fun _ => none }

/-- Witness for c5_counts_sum_to_length on a one-element history. -/
theorem c5_counts_sum_to_length_witness :
    (dictValues (dictIncr [] (sha256hex "Ap"))).sum = (c5env.snapshotsAll.length : Int) :=
  c5_counts_sum_to_length c5env (dictIncr [] (sha256hex "Ap"))
    [Exporter.Call.snapshots false] rfl

/-! ## Claim C7: the legacy stats cache -/

namespace Exporter

/-- A process lifetime of legacy-stats lookups: the sequence of snapshot ids
resolved through get_stats_legacy, threading the cache (which starts empty in
the constructor) and concatenating the call logs. -/
def lookupMany (cfg : Config) (env : Env) :
    List String → List (String × ResticStats) → List (String × ResticStats) × List Call
  | [], cache => (cache, [])
  | snapshot_id :: rest, cache =>
    let r := get_stats_legacy cfg env cache snapshot_id
    let r2 := lookupMany cfg env rest r.2.1
    (r2.1, r.2.2 ++ r2.2)

theorem count_legacy_call_ne (i id2 : String) (hne : id2 ≠ i) :
    List.count (Call.stats (some i) false) [Call.stats (some id2) false] = 0 := by
  rw [List.count_cons, List.count_nil]
  simp
  exact hne

theorem lookupMany_count_zero_of_cached (cfg : Config) (env : Env) (i : String)
    (v : ResticStats) : ∀ (ids : List String) (cache : List (String × ResticStats)),
    dictGet i cache = some v →
    ((lookupMany cfg env ids cache).2).count (Call.stats (some i) false) = 0 := by
  intro ids
  induction ids with
  | nil => intro cache hc; simp [lookupMany]
  | cons id2 rest ih =>
    intro cache hc
    cases hdis : cfg.disable_legacy_stats with
    | true =>
      simp [lookupMany, get_stats_legacy, hdis]
      exact ih cache hc
    | false =>
      rcases hget : dictGet id2 cache with _ | w
      · have hne : id2 ≠ i := by
          intro he
          rw [he, hc] at hget
          exact Option.noConfusion hget
        have hc2 : dictGet i (dictSet id2 (legacyFetched env id2) cache) = some v := by
          rw [dictGet_dictSet_ne i id2 _ cache hne]
          exact hc
        have hne2 : i ≠ id2 := Ne.symm hne
        simp [lookupMany, get_stats_legacy, hdis, hget, List.count_cons,
              ih _ hc2, hne, hne2]
      · simp [lookupMany, get_stats_legacy, hdis, hget, List.count_append, ih cache hc]

theorem lookupMany_count_le_one (cfg : Config) (env : Env) (i : String) :
    ∀ (ids : List String) (cache : List (String × ResticStats)),
    ((lookupMany cfg env ids cache).2).count (Call.stats (some i) false) ≤ 1 := by
  intro ids
  induction ids with
  | nil => intro cache; simp [lookupMany]
  | cons id2 rest ih =>
    intro cache
    cases hdis : cfg.disable_legacy_stats with
    | true =>
      simp [lookupMany, get_stats_legacy, hdis]
      exact ih cache
    | false =>
      rcases hget : dictGet id2 cache with _ | w
      · by_cases he : id2 = i
        · subst he
          have hz := lookupMany_count_zero_of_cached cfg env id2 (legacyFetched env id2)
            rest (dictSet id2 (legacyFetched env id2) cache)
            (dictGet_dictSet_self id2 _ cache)
          simp [lookupMany, get_stats_legacy, hdis, hget, List.count_append, hz,
                List.count_cons]
        · have hne2 : i ≠ id2 := Ne.symm he
          have := ih (dictSet id2 (legacyFetched env id2) cache)
          simp [lookupMany, get_stats_legacy, hdis, hget, List.count_cons, he, hne2]
          exact this
      · simp [lookupMany, get_stats_legacy, hdis, hget, List.count_append, ih cache]

end Exporter

/-- C7: the legacy stats cache invokes the collaborator at most once per
snapshot id per process lifetime (any sequence of lookups starting from the
empty cache performs at most one restic stats call for a given id), a cache
entry once written survives every later lookup unchanged, and (when legacy
stats are enabled) a lookup for a cached id returns the cached entry. -/
theorem c7_stats_cache_memoized :
    (∀ (cfg : Exporter.Config) (env : Exporter.Env) (ids : List String) (i : String),
       ((Exporter.lookupMany cfg env ids []).2).count (Exporter.Call.stats (some i) false) ≤ 1) ∧
    (∀ (cfg : Exporter.Config) (env : Exporter.Env) (cache : List (String × Exporter.ResticStats))
       (i : String) (v : Exporter.ResticStats) (id2 : String),
       dictGet i cache = some v →
       dictGet i (Exporter.get_stats_legacy cfg env cache id2).2.1 = some v) ∧
    (∀ (cfg : Exporter.Config) (env : Exporter.Env) (cache : List (String × Exporter.ResticStats))
       (i : String) (v : Exporter.ResticStats),
       cfg.disable_legacy_stats = false → dictGet i cache = some v →
       (Exporter.get_stats_legacy cfg env cache i).1 = v) := by
  refine ⟨?_, ?_, ?_⟩
  · intro cfg env ids i
    exact Exporter.lookupMany_count_le_one cfg env i ids []
  · intro cfg env cache i v id2 hc
    cases hdis : cfg.disable_legacy_stats with
    | true => simp [Exporter.get_stats_legacy, hdis, hc]
    | false =>
      rcases hget : dictGet id2 cache with _ | w
      · have hne : id2 ≠ i := by
          intro he
          rw [he, hc] at hget
          exact Option.noConfusion hget
        simp only [Exporter.get_stats_legacy, hdis, Bool.false_eq_true, if_false, hget]
        rw [dictGet_dictSet_ne i id2 _ cache hne]
        exact hc
      · simp [Exporter.get_stats_legacy, hdis, hget, hc]
  · intro cfg env cache i v hd hc
    simp [Exporter.get_stats_legacy, hd, hc]

/-- Configuration used by the witness of c7_stats_cache_memoized. -/
def c7cfg : Exporter.Config := ⟨false, false, false, false, false⟩

/-- Environment used by the witness of c7_stats_cache_memoized. -/
def c7env : Exporter.Env :=
  { snapshotsAll := [], snapshotsLatest := [], statsRaw := ⟨0, 0, 0, 0, 0⟩,
    statsById := fun _ => ⟨0, 0⟩, checkOk := true, locksOutput := [],
    mktimeIso := fun _ => none, fromisoDelta := fun _ => none }

/-- Witness for c7_stats_cache_memoized: two lookups of the same id from the
empty cache, preservation of an existing entry under a lookup of another id,
and the cached entry being returned. -/
theorem c7_stats_cache_memoized_witness :
    ((Exporter.lookupMany c7cfg c7env ["a", "a"] []).2).count
        (Exporter.Call.stats (some "a") false) ≤ 1 ∧
    dictGet "a" (Exporter.get_stats_legacy c7cfg c7env
        [("a", Exporter.sentinelStats)] "b").2.1 = some Exporter.sentinelStats ∧
    (Exporter.get_stats_legacy c7cfg c7env [("a", Exporter.sentinelStats)] "a").1 =
      Exporter.sentinelStats :=
  ⟨c7_stats_cache_memoized.1 c7cfg c7env ["a", "a"] "a",
   c7_stats_cache_memoized.2.1 c7cfg c7env [("a", Exporter.sentinelStats)] "a"
     Exporter.sentinelStats "b" rfl,
   c7_stats_cache_memoized.2.2 c7cfg c7env [("a", Exporter.sentinelStats)] "a"
     Exporter.sentinelStats rfl rfl⟩

/-! ## Claim C10: equal-timestamp tie-break in the latest-per-hash map -/

/-- Constructor shorthand for latest-per-hash snapshots used in witnesses. -/
def snapLit (host hsh : String) (ts : ℚ) : Exporter.ResticSnapshot :=
  { time := "", hostname := host, username := "", paths := [], id := host, short_id := host,
    tags := [], program_version := "", hash := hsh, timestamp := ts, stats := none }

/-- C10: because the replacement condition compares timestamps with a strict
greater-than, appending a snapshot whose timestamp equals that of the stored
same-hash entry leaves the stored entry in place: the first-encountered
snapshot among equal-timestamp peers wins deterministically. -/
theorem c10_equal_timestamp_keeps_first
    (l : List Exporter.ResticSnapshot) (snap : Exporter.ResticSnapshot) (h : String)
    (s : Exporter.ResticSnapshot)
    (hget : dictGet h (Exporter.dedupLatest l) = some s)
    (hh : snap.hash = h) (ht : snap.timestamp = s.timestamp) :
    dictGet h (Exporter.dedupLatest (l ++ [snap])) = some s := by
  have hstep : Exporter.dedupLatest (l ++ [snap]) =
      Exporter.dedupStep (Exporter.dedupLatest l) snap := by
    simp [Exporter.dedupLatest, List.foldl_append]
  rw [hstep]
  unfold Exporter.dedupStep
  rw [hh, hget]
  simp only [ht, lt_self_iff_false, if_false]
  exact hget

/-- Witness for c10_equal_timestamp_keeps_first: a later same-hash snapshot
with an equal timestamp does not displace the stored one. -/
theorem c10_equal_timestamp_keeps_first_witness :
    dictGet "A" (Exporter.dedupLatest ([snapLit "h1" "A" 100] ++ [snapLit "h2" "A" 100])) =
      some (snapLit "h1" "A" 100) :=
  c10_equal_timestamp_keeps_first [snapLit "h1" "A" 100] (snapLit "h2" "A" 100) "A"
    (snapLit "h1" "A" 100) rfl rfl rfl

/-! ## Claim C4: latest-per-hash deduplication -/

theorem dictGet_dictSet_cases {α : Type} (k k2 : String) (v : α) (d : List (String × α)) :
    dictGet k (dictSet k2 v d) = if k2 = k then some v else dictGet k d := by
  by_cases h : k2 = k
  · subst h
    simp [dictGet_dictSet_self]
  · simp [h, dictGet_dictSet_ne k k2 v d h]

namespace Exporter

theorem dedupStep_hash_inv (d : List (String × ResticSnapshot)) (a : ResticSnapshot)
    (hd : ∀ h s0, dictGet h d = some s0 → s0.hash = h) :
    ∀ h s0, dictGet h (dedupStep d a) = some s0 → s0.hash = h := by
  intro h s0 hs
  unfold dedupStep at hs
  rcases hga : dictGet a.hash d with _ | cur <;> rw [hga] at hs <;> dsimp only at hs
  · rw [dictGet_dictSet_cases] at hs
    split_ifs at hs with hcase
    · injection hs with he
      rw [← he, hcase]
    · exact hd h s0 hs
  · split_ifs at hs with hlt
    · rw [dictGet_dictSet_cases] at hs
      split_ifs at hs with hcase
      · injection hs with he
        rw [← he, hcase]
      · exact hd h s0 hs
    · exact hd h s0 hs

theorem dedupStep_get_other (d : List (String × ResticSnapshot)) (a : ResticSnapshot)
    (h : String) (hh : ¬a.hash = h) :
    dictGet h (dedupStep d a) = dictGet h d := by
  unfold dedupStep
  rcases hga : dictGet a.hash d with _ | cur <;> dsimp only
  · rw [dictGet_dictSet_cases]
    simp [hh]
  · split_ifs with hlt
    · rw [dictGet_dictSet_cases]
      simp [hh]
    · rfl

theorem dedupStep_get_self_none (d : List (String × ResticSnapshot)) (a : ResticSnapshot)
    (hga : dictGet a.hash d = none) :
    dictGet a.hash (dedupStep d a) = some a := by
  unfold dedupStep
  rw [hga]
  dsimp only
  rw [dictGet_dictSet_cases]
  simp

theorem dedupStep_get_self_lt (d : List (String × ResticSnapshot)) (a cur : ResticSnapshot)
    (hga : dictGet a.hash d = some cur) (hlt : cur.timestamp < a.timestamp) :
    dictGet a.hash (dedupStep d a) = some a := by
  unfold dedupStep
  rw [hga]
  dsimp only
  rw [if_pos hlt, dictGet_dictSet_cases]
  simp

theorem dedupStep_get_self_ge (d : List (String × ResticSnapshot)) (a cur : ResticSnapshot)
    (hga : dictGet a.hash d = some cur) (hlt : ¬cur.timestamp < a.timestamp) :
    dedupStep d a = d := by
  unfold dedupStep
  rw [hga]
  dsimp only
  rw [if_neg hlt]

theorem dedup_fold_spec :
    ∀ (l : List ResticSnapshot) (d : List (String × ResticSnapshot)),
    (∀ h s0, dictGet h d = some s0 → s0.hash = h) →
    ∀ h s, dictGet h (l.foldl dedupStep d) = some s →
      s.hash = h ∧ (s ∈ l ∨ dictGet h d = some s) ∧
      (∀ x ∈ l, x.hash = h → x.timestamp ≤ s.timestamp) ∧
      (∀ s0, dictGet h d = some s0 → s0.timestamp ≤ s.timestamp) := by
  intro l
  induction l with
  | nil =>
    intro d hd h s hs
    simp only [List.foldl_nil] at hs
    refine ⟨hd h s hs, Or.inr hs, by simp, ?_⟩
    intro s0 h0
    have he : s0 = s := by
      have := h0.symm.trans hs
      exact Option.some.inj this
    rw [he]
  | cons a l ih =>
    intro d hd h s hs
    have hd2 := dedupStep_hash_inv d a hd
    rw [List.foldl_cons] at hs
    obtain ⟨hhash, hmem, hall, hmono⟩ := ih (dedupStep d a) hd2 h s hs
    by_cases hh : a.hash = h
    · rcases hga : dictGet a.hash d with _ | cur
      · have d2get : dictGet h (dedupStep d a) = some a := by
          rw [← hh]
          exact dedupStep_get_self_none d a hga
        have hats : a.timestamp ≤ s.timestamp := hmono a d2get
        refine ⟨hhash, ?_, ?_, ?_⟩
        · rcases hmem with hin | hd2get
          · exact Or.inl (List.mem_cons_of_mem a hin)
          · have hsa : s = a := by
              rw [d2get] at hd2get
              exact (Option.some.inj hd2get).symm
            exact Or.inl (hsa ▸ List.mem_cons_self a l)
        · intro x hx hxh
          rcases List.mem_cons.mp hx with hxa | hxl
          · rw [hxa]
            exact hats
          · exact hall x hxl hxh
        · intro s0 h0
          rw [← hh, hga] at h0
          exact Option.noConfusion h0
      · by_cases hlt : cur.timestamp < a.timestamp
        · have d2get : dictGet h (dedupStep d a) = some a := by
            rw [← hh]
            exact dedupStep_get_self_lt d a cur hga hlt
          have hats : a.timestamp ≤ s.timestamp := hmono a d2get
          refine ⟨hhash, ?_, ?_, ?_⟩
          · rcases hmem with hin | hd2get
            · exact Or.inl (List.mem_cons_of_mem a hin)
            · have hsa : s = a := by
                rw [d2get] at hd2get
                exact (Option.some.inj hd2get).symm
              exact Or.inl (hsa ▸ List.mem_cons_self a l)
          · intro x hx hxh
            rcases List.mem_cons.mp hx with hxa | hxl
            · rw [hxa]
              exact hats
            · exact hall x hxl hxh
          · intro s0 h0
            rw [← hh, hga] at h0
            have he : cur = s0 := Option.some.inj h0
            rw [← he]
            exact le_of_lt (lt_of_lt_of_le hlt hats)
        · have hstep : dedupStep d a = d := dedupStep_get_self_ge d a cur hga hlt
          rw [hstep] at hmem hmono
          have hcurs : cur.timestamp ≤ s.timestamp := by
            apply hmono
            rw [← hh]
            exact hga
          refine ⟨hhash, ?_, ?_, hmono⟩
          · rcases hmem with hin | hdget
            · exact Or.inl (List.mem_cons_of_mem a hin)
            · exact Or.inr hdget
          · intro x hx hxh
            rcases List.mem_cons.mp hx with hxa | hxl
            · rw [hxa]
              exact le_trans (le_of_not_lt hlt) hcurs
            · exact hall x hxl hxh
    · have hsame : dictGet h (dedupStep d a) = dictGet h d := dedupStep_get_other d a h hh
      rw [hsame] at hmem hmono
      refine ⟨hhash, ?_, ?_, hmono⟩
      · rcases hmem with hin | hdget
        · exact Or.inl (List.mem_cons_of_mem a hin)
        · exact Or.inr hdget
      · intro x hx hxh
        rcases List.mem_cons.mp hx with hxa | hxl
        · rw [hxa] at hxh
          exact absurd hxh hh
        · exact hall x hxl hxh

end Exporter

/-- Configuration used by the concrete example of claim C4: all external
signals disabled, paths excluded. -/
def c4cfg : Exporter.Config := ⟨true, true, true, true, false⟩

/-- The three latest-per-host records of the concrete example of claim C4:
two records of host A (timestamps 100 and 200) and one of host B
(timestamp 150); the full history equals the latest list. -/
def c4env : Exporter.Env :=
  { snapshotsAll := [
      { time := some "t100", hostname := some "A", username := none, paths := some ["p"],
        id := some "a1", short_id := some "a1", tags := some ["SLA"],
        program_version := none, summary := none },
      { time := some "t200", hostname := some "A", username := none, paths := some ["p"],
        id := some "a2", short_id := some "a2", tags := some ["SLA"],
        program_version := none, summary := none },
      { time := some "t150", hostname := some "B", username := none, paths := some ["p"],
        id := some "b1", short_id := some "b1", tags := some ["SLA"],
        program_version := none, summary := none }]
    snapshotsLatest := [
      { time := some "t100", hostname := some "A", username := none, paths := some ["p"],
        id := some "a1", short_id := some "a1", tags := some ["SLA"],
        program_version := none, summary := none },
      { time := some "t200", hostname := some "A", username := none, paths := some ["p"],
        id := some "a2", short_id := some "a2", tags := some ["SLA"],
        program_version := none, summary := none },
      { time := some "t150", hostname := some "B", username := none, paths := some ["p"],
        id := some "b1", short_id := some "b1", tags := some ["SLA"],
        program_version := none, summary := none }]
    statsRaw := ⟨0, 0, 0, 0, 0⟩
    statsById := fun _ => ⟨0, 0⟩
    checkOk := true
    locksOutput := []
    mktimeIso := fun t =>
      if t = "t100" then some 100 else if t = "t200" then some 200
      else if t = "t150" then some 150 else none
    fromisoDelta := fun _ => none }

/-- C4: every entry of the deduplicated hash-to-latest map belongs to the
input and carries the maximum timestamp among same-hash snapshots; and on the
concrete input with two hash-A snapshots (t=100, t=200) and one hash-B
snapshot (t=150), the assembled client list has exactly the A-entry with
snapshotsTotal 2 and timestamp 200 followed by the B-entry with
snapshotsTotal 1 and timestamp 150. -/
theorem c4_latest_per_hash :
    (∀ (snaps : List Exporter.ResticSnapshot) (h : String) (s : Exporter.ResticSnapshot),
       dictGet h (Exporter.dedupLatest snaps) = some s →
       s ∈ snaps ∧ s.hash = h ∧ ∀ x ∈ snaps, x.hash = h → x.timestamp ≤ s.timestamp) ∧
    (Exporter.clientsOf (Exporter.get_metrics c4cfg c4env [])).map
        (fun c => (c.hostname, c.snapshots_total, c.timestamp)) =
      [("A", 2, 200), ("B", 1, 150)] := by
  constructor
  · intro snaps h s hs
    have hd : ∀ h2 s0, dictGet h2 ([] : List (String × Exporter.ResticSnapshot)) = some s0 →
        s0.hash = h2 := by
      intro h2 s0 h0
      exact Option.noConfusion h0
    obtain ⟨hhash, hmem, hall, _⟩ := Exporter.dedup_fold_spec snaps [] hd h s hs
    refine ⟨?_, hhash, hall⟩
    rcases hmem with hin | hdget
    · exact hin
    · exact Option.noConfusion hdget
  · decide

/-- Witness for c4_latest_per_hash: the general maximality statement applied
to a one-element input. -/
theorem c4_latest_per_hash_witness :
    snapLit "h1" "A" 100 ∈ [snapLit "h1" "A" 100] ∧ (snapLit "h1" "A" 100).hash = "A" :=
  ⟨(c4_latest_per_hash.1 [snapLit "h1" "A" 100] "A" (snapLit "h1" "A" 100) rfl).1,
   (c4_latest_per_hash.1 [snapLit "h1" "A" 100] "A" (snapLit "h1" "A" 100) rfl).2.1⟩

/-! ## Claim C8: required and optional fields, abort semantics -/

namespace Exporter

theorem normalizeAll_error_of_mem (env : Env) :
    ∀ (l : List RawSnap) (r : RawSnap) (e0 : PyError),
    r ∈ l → normalizeSnap env r = .error e0 →
    ∃ e, normalizeAll env l = .error e := by
  intro l
  induction l with
  | nil =>
    intro r e0 hm
    exact absurd hm (List.not_mem_nil r)
  | cons a rest ih =>
    intro r e0 hm hr
    rcases ha : normalizeSnap env a with ea | sa
    · exact ⟨ea, by simp [normalizeAll, ha]⟩
    · rcases List.mem_cons.mp hm with he | hm2
      · rw [he, ha] at hr
        exact Except.noConfusion hr
      · obtain ⟨e, h2⟩ := ih r e0 hm2 hr
        refine ⟨e, ?_⟩
        simp [normalizeAll, ha, h2]

theorem get_metrics_isError_of_latest (cfg : Config) (env : Env)
    (cache0 : List (String × ResticStats)) (e : PyError)
    (hl : normalizeAll env env.snapshotsLatest = .error e) :
    ∃ e2, (get_metrics cfg env cache0).1 = .error e2 := by
  unfold get_metrics
  rcases hcnt : countersAux env.snapshotsAll [] with ec | counter
  · exact ⟨ec, by simp [get_snapshots_counters, hcnt]⟩
  · exact ⟨e, by simp [get_snapshots_counters, hcnt, get_latest_snapshots, hl]⟩

theorem refresh_keeps_prev (cfg : Config) (env : Env) (prev : Option ResticMetrics)
    (cache0 : List (String × ResticStats))
    (h : ∃ e2, (get_metrics cfg env cache0).1 = .error e2) :
    (refresh cfg env prev cache0).1 = prev := by
  obtain ⟨e2, h2⟩ := h
  unfold refresh
  rcases hm : get_metrics cfg env cache0 with ⟨res, cache1, log⟩
  rw [hm] at h2
  dsimp only at h2
  rw [h2]

end Exporter

/-- C8: a raw record missing one of the required fields hostname, paths or
time fails normalization with the malformed-data error, the whole pass fails,
and refresh keeps the previously published metrics; a record missing
username, tags or program_version instead normalizes with the empty
default. -/
theorem c8_required_and_optional_fields :
    (∀ (env : Exporter.Env) (r : Exporter.RawSnap),
       r ∈ env.snapshotsLatest →
       (r.hostname = none ∨ r.paths = none ∨ r.time = none) →
       Exporter.normalizeSnap env r = .error .malformedData ∧
       (∃ e, (Exporter.get_latest_snapshots env).1 = .error e) ∧
       (∀ (cfg : Exporter.Config) (prev : Option Exporter.ResticMetrics)
          (cache0 : List (String × Exporter.ResticStats)),
          (Exporter.refresh cfg env prev cache0).1 = prev)) ∧
    (∀ (env : Exporter.Env) (r : Exporter.RawSnap) (h t : String) (ps : List String) (q : ℚ)
       (i si : String),
       r.hostname = some h → r.paths = some ps → r.time = some t →
       env.mktimeIso t = some q → r.summary = none → r.id = some i → r.short_id = some si →
       r.username = none → r.tags = none → r.program_version = none →
       Exporter.normalizeSnap env r = .ok
         { time := t, hostname := h, username := "", paths := ps, id := i, short_id := si,
           tags := [], program_version := "",
           hash := sha256hex (h ++ "" ++ String.intercalate "," ps), timestamp := q,
           stats := none }) := by
  constructor
  · intro env r hmem hmiss
    have hnorm : Exporter.normalizeSnap env r = .error .malformedData := by
      rcases hmiss with h1 | h2 | h3
      · simp [Exporter.normalizeSnap, Exporter.calc_snapshot_hash, h1]
      · rcases hh : r.hostname with _ | hv
        · simp [Exporter.normalizeSnap, Exporter.calc_snapshot_hash, hh]
        · simp [Exporter.normalizeSnap, Exporter.calc_snapshot_hash, hh, h2]
      · rcases hh : r.hostname with _ | hv
        · simp [Exporter.normalizeSnap, Exporter.calc_snapshot_hash, hh]
        · rcases hp : r.paths with _ | pv
          · simp [Exporter.normalizeSnap, Exporter.calc_snapshot_hash, hh, hp]
          · simp [Exporter.normalizeSnap, Exporter.calc_snapshot_hash,
                  Exporter.calc_snapshot_timestamp, hh, hp, h3]
    have hlat : ∃ e, Exporter.normalizeAll env env.snapshotsLatest = .error e :=
      Exporter.normalizeAll_error_of_mem env env.snapshotsLatest r .malformedData hmem hnorm
    obtain ⟨e, hl⟩ := hlat
    refine ⟨hnorm, ⟨e, ?_⟩, ?_⟩
    · simp [Exporter.get_latest_snapshots, hl]
    · intro cfg prev cache0
      exact Exporter.refresh_keeps_prev cfg env prev cache0
        (Exporter.get_metrics_isError_of_latest cfg env cache0 e hl)
  · intro env r h t ps q i si hh hp ht hq hsum hid hsid hu htags hpv
    simp [Exporter.normalizeSnap, Exporter.calc_snapshot_hash,
          Exporter.calc_snapshot_timestamp, Exporter.calc_snapshot_stats,
          hh, hp, ht, hq, hsum, hid, hsid, hu, htags, hpv]

/-- Malformed raw record (hostname missing) used by the c8 witness. -/
def c8bad : Exporter.RawSnap :=
  { time := some "t", hostname := none, username := none, paths := some ["p"],
    id := some "i", short_id := some "i", tags := none, program_version := none,
    summary := none }

/-- Well-formed raw record missing only the optional fields, used by the c8
witness. -/
def c8good : Exporter.RawSnap :=
  { time := some "t", hostname := some "h", username := none, paths := some ["p"],
    id := some "i", short_id := some "i", tags := none, program_version := none,
    summary := none }

/-- Environment whose latest-snapshot list holds the malformed record. -/
def c8env : Exporter.Env :=
  { snapshotsAll := [], snapshotsLatest := [c8bad], statsRaw := ⟨0, 0, 0, 0, 0⟩,
    statsById := fun _ => ⟨0, 0⟩, checkOk := true, locksOutput := [],
    mktimeIso := fun _ => some 0, fromisoDelta := fun _ => none }

/-- Configuration used by the c8 witness. -/
def c8cfg : Exporter.Config := ⟨true, true, true, true, false⟩

/-- Previously published metrics used by the c8 witness. -/
def c8prev : Exporter.ResticMetrics :=
  { check_success := 2, locks_total := 0, clients := [],
    global_stats := Exporter.sentinelGlobalStats }

/-- Witness for c8_required_and_optional_fields: the malformed record fails
with malformedData, refresh keeps the previous metrics, and the record
missing only optional fields normalizes with empty defaults. -/
theorem c8_required_and_optional_fields_witness :
    Exporter.normalizeSnap c8env c8bad = .error .malformedData ∧
    (Exporter.refresh c8cfg c8env (some c8prev) []).1 = some c8prev ∧
    Exporter.normalizeSnap c8env c8good = .ok
      { time := "t", hostname := "h", username := "", paths := ["p"], id := "i",
        short_id := "i", tags := [], program_version := "",
        hash := sha256hex ("h" ++ "" ++ String.intercalate "," ["p"]), timestamp := 0,
        stats := none } :=
  ⟨(c8_required_and_optional_fields.1 c8env c8bad (List.mem_singleton.mpr rfl)
      (Or.inl rfl)).1,
   (c8_required_and_optional_fields.1 c8env c8bad (List.mem_singleton.mpr rfl)
      (Or.inl rfl)).2.2 c8cfg (some c8prev) [],
   c8_required_and_optional_fields.2 c8env c8good "h" "t" ["p"] 0 "i" "i"
     rfl rfl rfl rfl rfl rfl rfl rfl rfl rfl⟩

/-! ## Claim C6: disabled-signal sentinels and collaborator calls -/

namespace Exporter

theorem get_stats_legacy_log (cfg : Config) (env : Env)
    (cache : List (String × ResticStats)) (snapshot_id : String) :
    ∀ c ∈ (get_stats_legacy cfg env cache snapshot_id).2.2,
      c = Call.stats (some snapshot_id) false := by
  intro c hc
  unfold get_stats_legacy at hc
  split_ifs at hc with hd
  · exact absurd hc (List.not_mem_nil c)
  · rcases hget : dictGet snapshot_id cache with _ | w <;> rw [hget] at hc <;> dsimp only at hc
    · rcases List.mem_singleton.mp hc with h
      exact h
    · exact absurd hc (List.not_mem_nil c)

theorem get_stats_legacy_disabled (cfg : Config) (env : Env)
    (cache : List (String × ResticStats)) (snapshot_id : String)
    (hd : cfg.disable_legacy_stats = true) :
    get_stats_legacy cfg env cache snapshot_id = (sentinelStats, cache, []) := by
  simp [get_stats_legacy, hd]

theorem clientsLoop_log_stats_only (cfg : Config) (env : Env)
    (counter : List (String × Int)) :
    ∀ (snaps : List ResticSnapshot) (cache : List (String × ResticStats)),
    ∀ c ∈ (clientsLoop cfg env counter snaps cache).2.2,
      ∃ i, c = Call.stats (some i) false := by
  intro snaps
  induction snaps with
  | nil =>
    intro cache c hc
    simp [clientsLoop] at hc
  | cons snap rest ih =>
    intro cache c hc
    unfold clientsLoop at hc
    rcases hcnt : dictGet snap.hash counter with _ | total <;> rw [hcnt] at hc <;>
      dsimp only at hc
    · rcases hst : snap.stats with _ | s <;> rw [hst] at hc <;> dsimp only at hc
      · exact ⟨snap.id, get_stats_legacy_log cfg env cache snap.id c hc⟩
      · exact absurd hc (List.not_mem_nil c)
    · rcases hst : snap.stats with _ | s <;> rw [hst] at hc <;> dsimp only at hc
      · rcases hrec : clientsLoop cfg env counter rest
            (get_stats_legacy cfg env cache snap.id).2.1 with ⟨clres, cache2, log2⟩
        rw [hrec] at hc
        rcases clres with e | cs <;> dsimp only at hc <;>
          rcases List.mem_append.mp hc with h1 | h2
        · exact ⟨snap.id, get_stats_legacy_log cfg env cache snap.id c h1⟩
        · exact ih _ c (by rw [hrec]; exact h2)
        · exact ⟨snap.id, get_stats_legacy_log cfg env cache snap.id c h1⟩
        · exact ih _ c (by rw [hrec]; exact h2)
      · rcases hrec : clientsLoop cfg env counter rest cache with ⟨clres, cache2, log2⟩
        rw [hrec] at hc
        rcases clres with e | cs <;> dsimp only at hc <;> simp at hc
        · exact ih cache c (by rw [hrec]; exact hc)
        · exact ih cache c (by rw [hrec]; exact hc)

theorem clientsLoop_log_disabled (cfg : Config) (env : Env)
    (counter : List (String × Int)) (hd : cfg.disable_legacy_stats = true) :
    ∀ (snaps : List ResticSnapshot) (cache : List (String × ResticStats)),
    (clientsLoop cfg env counter snaps cache).2.2 = [] := by
  intro snaps
  induction snaps with
  | nil => intro cache; simp [clientsLoop]
  | cons snap rest ih =>
    intro cache
    unfold clientsLoop
    rcases hcnt : dictGet snap.hash counter with _ | total <;> dsimp only
    · rcases hst : snap.stats with _ | s <;> dsimp only <;>
        simp [get_stats_legacy_disabled cfg env cache snap.id hd]
    · rcases hst : snap.stats with _ | s <;> dsimp only
      · rw [get_stats_legacy_disabled cfg env cache snap.id hd]
        dsimp only
        rcases hrec : clientsLoop cfg env counter rest cache with ⟨clres, cache2, log2⟩
        have hlog2 : log2 = [] := by
          have := ih cache
          rw [hrec] at this
          exact this
        rcases clres with e | cs <;> simp [hlog2]
      · rcases hrec : clientsLoop cfg env counter rest cache with ⟨clres, cache2, log2⟩
        have hlog2 : log2 = [] := by
          have := ih cache
          rw [hrec] at this
          exact this
        rcases clres with e | cs <;> simp [hrec, hlog2]

/-- Case analysis of one get_metrics run: either the pass fails (with the
calls made so far logged), or it succeeds with the sentinel/collaborator
values for check, locks and global stats and a client-loop log consisting
only of per-snapshot legacy stats calls (empty when legacy stats are
disabled). -/
theorem get_metrics_cases (cfg : Config) (env : Env)
    (cache0 : List (String × ResticStats)) :
    (∃ e, get_metrics cfg env cache0 =
        (.error e, cache0, [Call.snapshots false])) ∨
    (∃ e, get_metrics cfg env cache0 =
        (.error e, cache0, [Call.snapshots false] ++ [Call.snapshots true])) ∨
    (∃ e cache1 logC, get_metrics cfg env cache0 =
        (.error e, cache1, [Call.snapshots false] ++ [Call.snapshots true] ++ logC) ∧
        (∀ c ∈ logC, ∃ i, c = Call.stats (some i) false) ∧
        (cfg.disable_legacy_stats = true → logC = [])) ∨
    (∃ clients cache1 logC, get_metrics cfg env cache0 =
        (.ok { check_success := if cfg.disable_check then 2 else (get_check env).1,
               locks_total := if cfg.disable_locks then 0 else (get_locks env).1,
               clients := clients,
               global_stats := (get_stats_global cfg env).1 },
         cache1,
         [Call.snapshots false] ++ [Call.snapshots true] ++ logC ++
           (get_stats_global cfg env).2 ++
           (if cfg.disable_check then ([] : List Call) else (get_check env).2) ++
           (if cfg.disable_locks then ([] : List Call) else (get_locks env).2)) ∧
        (∀ c ∈ logC, ∃ i, c = Call.stats (some i) false) ∧
        (cfg.disable_legacy_stats = true → logC = [])) := by
  rcases hcnt : countersAux env.snapshotsAll [] with ec | counter
  · left
    refine ⟨ec, ?_⟩
    unfold get_metrics
    simp [get_snapshots_counters, hcnt]
  · rcases hlat : normalizeAll env env.snapshotsLatest with el | latest
    · right; left
      refine ⟨el, ?_⟩
      unfold get_metrics
      simp [get_snapshots_counters, hcnt, get_latest_snapshots, hlat]
    · rcases hcl : clientsLoop cfg env counter (dictValues (dedupLatest latest)) cache0
        with ⟨clres, cache1, logC⟩
      have hstats := clientsLoop_log_stats_only cfg env counter
        (dictValues (dedupLatest latest)) cache0
      rw [hcl] at hstats
      have hdis : cfg.disable_legacy_stats = true → logC = [] := by
        intro hd
        have := clientsLoop_log_disabled cfg env counter hd
          (dictValues (dedupLatest latest)) cache0
        rw [hcl] at this
        exact this
      rcases clres with e | clients
      · right; right; left
        refine ⟨e, cache1, logC, ?_, hstats, hdis⟩
        unfold get_metrics
        simp [get_snapshots_counters, hcnt, get_latest_snapshots, hlat, hcl]
      · right; right; right
        refine ⟨clients, cache1, logC, ?_, hstats, hdis⟩
        unfold get_metrics
        simp only [get_snapshots_counters, get_latest_snapshots, hcnt, hlat, hcl]
        by_cases hc : cfg.disable_check <;> by_cases hl : cfg.disable_locks <;>
          simp [hc, hl, get_check, get_locks]

end Exporter

/-- C6 (amended): with check disabled the metrics report checkSuccess = 2 and
no check call is made; with locks disabled locksTotal = 0 and no locks call;
with global stats disabled every globalStats field is -1 and no raw-mode
stats call; with per-snapshot (legacy) stats disabled no per-snapshot stats
call is made and the legacy resolver returns the all-(-1) sentinel — but a
client whose snapshot carries an embedded summary keeps the summary values,
not the sentinel (see the counterexample). -/
theorem c6_disabled_sentinels_amended (cfg : Exporter.Config) (env : Exporter.Env)
    (cache0 : List (String × Exporter.ResticStats)) :
    (cfg.disable_check = true →
       Exporter.Call.check ∉ (Exporter.get_metrics cfg env cache0).2.2 ∧
       ∀ m, (Exporter.get_metrics cfg env cache0).1 = .ok m → m.check_success = 2) ∧
    (cfg.disable_locks = true →
       Exporter.Call.locks ∉ (Exporter.get_metrics cfg env cache0).2.2 ∧
       ∀ m, (Exporter.get_metrics cfg env cache0).1 = .ok m → m.locks_total = 0) ∧
    (cfg.disable_global_stats = true →
       Exporter.Call.stats none true ∉ (Exporter.get_metrics cfg env cache0).2.2 ∧
       ∀ m, (Exporter.get_metrics cfg env cache0).1 = .ok m →
         m.global_stats = Exporter.sentinelGlobalStats) ∧
    (cfg.disable_legacy_stats = true →
       (∀ i, Exporter.Call.stats (some i) false ∉ (Exporter.get_metrics cfg env cache0).2.2) ∧
       ∀ snapshot_id, Exporter.get_stats_legacy cfg env cache0 snapshot_id =
         (Exporter.sentinelStats, cache0, [])) := by
  have hgl : cfg.disable_global_stats = true →
      Exporter.get_stats_global cfg env = (Exporter.sentinelGlobalStats, []) := by
    intro hd
    simp [Exporter.get_stats_global, hd]
  rcases Exporter.get_metrics_cases cfg env cache0 with ⟨e, heq⟩ | ⟨e, heq⟩ |
    ⟨e, cache1, logC, heq, hstats, hdisC⟩ | ⟨clients, cache1, logC, heq, hstats, hdisC⟩
  · refine ⟨fun hc => ⟨?_, ?_⟩, fun hc => ⟨?_, ?_⟩, fun hc => ⟨?_, ?_⟩,
      fun hc => ⟨fun i => ?_, fun snapshot_id =>
        Exporter.get_stats_legacy_disabled cfg env cache0 snapshot_id hc⟩⟩ <;>
      first
        | simp [heq]
        | (intro m hm; rw [heq] at hm; simp at hm)
  · refine ⟨fun hc => ⟨?_, ?_⟩, fun hc => ⟨?_, ?_⟩, fun hc => ⟨?_, ?_⟩,
      fun hc => ⟨fun i => ?_, fun snapshot_id =>
        Exporter.get_stats_legacy_disabled cfg env cache0 snapshot_id hc⟩⟩ <;>
      first
        | simp [heq]
        | (intro m hm; rw [heq] at hm; simp at hm)
  · have hnotCheck : Exporter.Call.check ∉ logC := by
      intro hm2
      obtain ⟨i, hi⟩ := hstats _ hm2
      exact Exporter.Call.noConfusion hi
    have hnotLocks : Exporter.Call.locks ∉ logC := by
      intro hm2
      obtain ⟨i, hi⟩ := hstats _ hm2
      exact Exporter.Call.noConfusion hi
    have hnotRaw : Exporter.Call.stats none true ∉ logC := by
      intro hm2
      obtain ⟨i, hi⟩ := hstats _ hm2
      injection hi with h1 h2
      exact Option.noConfusion h1
    refine ⟨fun hc => ⟨?_, ?_⟩, fun hc => ⟨?_, ?_⟩, fun hc => ⟨?_, ?_⟩,
      fun hc => ⟨fun i => ?_, fun snapshot_id =>
        Exporter.get_stats_legacy_disabled cfg env cache0 snapshot_id hc⟩⟩
    · simp [heq, hnotCheck]
    · intro m hm; rw [heq] at hm; simp at hm
    · simp [heq, hnotLocks]
    · intro m hm; rw [heq] at hm; simp at hm
    · simp [heq, hnotRaw]
    · intro m hm; rw [heq] at hm; simp at hm
    · simp [heq, hdisC hc]
  · have hnotCheck : Exporter.Call.check ∉ logC := by
      intro hm2
      obtain ⟨i, hi⟩ := hstats _ hm2
      exact Exporter.Call.noConfusion hi
    have hnotLocks : Exporter.Call.locks ∉ logC := by
      intro hm2
      obtain ⟨i, hi⟩ := hstats _ hm2
      exact Exporter.Call.noConfusion hi
    have hnotRaw : Exporter.Call.stats none true ∉ logC := by
      intro hm2
      obtain ⟨i, hi⟩ := hstats _ hm2
      injection hi with h1 h2
      exact Option.noConfusion h1
    refine ⟨fun hc => ⟨?_, ?_⟩, fun hc => ⟨?_, ?_⟩, fun hc => ⟨?_, ?_⟩,
      fun hc => ⟨fun i => ?_, fun snapshot_id =>
        Exporter.get_stats_legacy_disabled cfg env cache0 snapshot_id hc⟩⟩
    · simp [heq, hnotCheck, hc, Exporter.get_stats_global, Exporter.get_locks]
      split_ifs <;> simp
    · intro m hm
      rw [heq] at hm
      dsimp only at hm
      have hms := Except.ok.inj hm
      rw [← hms]
      simp [hc]
    · simp [heq, hnotLocks, hc, Exporter.get_stats_global, Exporter.get_check]
      split_ifs <;> simp
    · intro m hm
      rw [heq] at hm
      dsimp only at hm
      have hms := Except.ok.inj hm
      rw [← hms]
      simp [hc]
    · simp [heq, hnotRaw, hgl hc, Exporter.get_check, Exporter.get_locks]
    · intro m hm
      rw [heq] at hm
      dsimp only at hm
      have hms := Except.ok.inj hm
      rw [← hms]
      simp [hgl hc]
    · simp [heq, hdisC hc, Exporter.get_stats_global, Exporter.get_check, Exporter.get_locks]
      split_ifs <;> simp

/-- Configuration of the c6 counterexample: every disableable signal is
disabled, including per-snapshot legacy stats. -/
def c6cfg : Exporter.Config := ⟨true, true, true, true, false⟩

/-- Environment of the c6 counterexample: one snapshot that carries an
embedded summary with total_bytes_processed = 5. -/
def c6env : Exporter.Env :=
  { snapshotsAll := [
      { time := some "t", hostname := some "A", username := none, paths := some ["p"],
        id := some "a1", short_id := some "a1", tags := some ["SLA"],
        program_version := none,
        summary := some
          { backup_start := none, backup_end := none, total_bytes_processed := some 5,
            total_files_processed := some 7, files_new := none, files_changed := none,
            files_unmodified := none, dirs_new := none, dirs_changed := none,
            dirs_unmodified := none, data_added := none } }]
    snapshotsLatest := [
      { time := some "t", hostname := some "A", username := none, paths := some ["p"],
        id := some "a1", short_id := some "a1", tags := some ["SLA"],
        program_version := none,
        summary := some
          { backup_start := none, backup_end := none, total_bytes_processed := some 5,
            total_files_processed := some 7, files_new := none, files_changed := none,
            files_unmodified := none, dirs_new := none, dirs_changed := none,
            dirs_unmodified := none, data_added := none } }]
    statsRaw := ⟨0, 0, 0, 0, 0⟩
    statsById := fun _ => ⟨0, 0⟩
    checkOk := true
    locksOutput := []
    mktimeIso := fun _ => some 100
    fromisoDelta := fun _ => none }

/-- C6 (counterexample): with per-snapshot stats disabled, a client whose
snapshot carries an embedded summary reports the summary values, not -1: the
assembled metrics contain a client with stats.total_size = 5. -/
theorem c6_embedded_stats_counterexample :
    c6cfg.disable_legacy_stats = true ∧
    (Exporter.clientsOf (Exporter.get_metrics c6cfg c6env [])).map
        (fun c => c.stats.total_size) = [5] := by
  constructor
  · rfl
  · decide

/-- Configuration used by the witness of c6_disabled_sentinels_amended. -/
def c6wcfg : Exporter.Config := ⟨true, true, true, true, false⟩

/-- Environment used by the witness of c6_disabled_sentinels_amended. -/
def c6wenv : Exporter.Env :=
  { snapshotsAll := [], snapshotsLatest := [], statsRaw := ⟨0, 0, 0, 0, 0⟩,
    statsById := fun _ => ⟨0, 0⟩, checkOk := true, locksOutput := [],
    mktimeIso := fun _ => none, fromisoDelta := fun _ => none }

/-- Witness for c6_disabled_sentinels_amended at a concrete all-disabled
configuration. -/
theorem c6_disabled_sentinels_amended_witness :
    Exporter.Call.check ∉ (Exporter.get_metrics c6wcfg c6wenv []).2.2 ∧
    Exporter.Call.locks ∉ (Exporter.get_metrics c6wcfg c6wenv []).2.2 ∧
    Exporter.Call.stats none true ∉ (Exporter.get_metrics c6wcfg c6wenv []).2.2 ∧
    Exporter.get_stats_legacy c6wcfg c6wenv [] "x" = (Exporter.sentinelStats, [], []) :=
  ⟨((c6_disabled_sentinels_amended c6wcfg c6wenv []).1 rfl).1,
   ((c6_disabled_sentinels_amended c6wcfg c6wenv []).2.1 rfl).1,
   ((c6_disabled_sentinels_amended c6wcfg c6wenv []).2.2.1 rfl).1,
   ((c6_disabled_sentinels_amended c6wcfg c6wenv []).2.2.2 rfl).2 "x"⟩

/-! ## Claim C2: retention evaluation on an empty history -/

theorem pyRound_zero : pyRound 0 = 0 := by
  unfold pyRound
  norm_num

theorem max_daily_snaps_zero : Legacy.max_daily_snaps 0 = 0 := by
  unfold Legacy.max_daily_snaps
  norm_num [pyRound_zero]

theorem max_weekly_snaps_zero : Legacy.max_weekly_snaps 0 = 0 := by
  unfold Legacy.max_weekly_snaps
  norm_num

theorem max_monthly_snaps_zero : Legacy.max_monthly_snaps 0 = 0 := by
  unfold Legacy.max_monthly_snaps
  norm_num

theorem max_yearly_snaps_zero : Legacy.max_yearly_snaps 0 = 0 := by
  unfold Legacy.max_yearly_snaps
  norm_num

/-- C2 (counterexample): on an empty snapshot history the hourly category
does not have expectedCount = 0 and satisfied = true regardless of the clock:
at local hour 3 with expected-backup-hours {3}, hourly expectedCount is 1 and
satisfied is false. -/
theorem c2_empty_history_counterexample :
    (Legacy.retention ⟨0, 3⟩ [] [3] [] ⟨0, 0, 0, 0, 0⟩).hourly.expected = 1 ∧
    Legacy.satisfied ((Legacy.retention ⟨0, 3⟩ [] [3] [] ⟨0, 0, 0, 0, 0⟩).hourly) = false := by
  constructor
  · decide
  · decide

/-- C2 (amended): on an empty history, every category except hourly has
expectedCount = 0 and foundCount = 0 (given nonnegative policy limits), so
satisfied = true; the hourly category instead has expectedCount equal to the
number of configured backup hours in [0, currentHour] (and foundCount = 0),
so hourly is satisfied exactly when no configured backup hour has passed
yet today. -/
theorem c2_empty_history_amended (today : Legacy.Today) (policy : List (String × Int))
    (backup_times : List Int) (sla : Legacy.SlaFound)
    (hd : 0 ≤ Legacy.policyGet policy "daily" 0)
    (hw : 0 ≤ Legacy.policyGet policy "weekly" 0)
    (hm : 0 ≤ Legacy.policyGet policy "monthly" 0)
    (hy : 0 ≤ Legacy.policyGet policy "yearly" 0) :
    Legacy.retention today policy backup_times [] sla =
      { manual := ⟨Legacy.policyGet policy "manual" 0, 0, 0⟩
        update := ⟨Legacy.policyGet policy "update" 0, 0, 0⟩
        hourly := ⟨Legacy.policyGet policy "hourly" 0,
                   Legacy.expectedHourly backup_times today.hour, 0⟩
        daily := ⟨Legacy.policyGet policy "daily" 0, 0, 0⟩
        weekly := ⟨Legacy.policyGet policy "weekly" 0, 0, 0⟩
        monthly := ⟨Legacy.policyGet policy "monthly" 0, 0, 0⟩
        yearly := ⟨Legacy.policyGet policy "yearly" 0, 0, 0⟩ } ∧
    (Legacy.satisfied (Legacy.retention today policy backup_times [] sla).manual = true ∧
     Legacy.satisfied (Legacy.retention today policy backup_times [] sla).update = true ∧
     Legacy.satisfied (Legacy.retention today policy backup_times [] sla).daily = true ∧
     Legacy.satisfied (Legacy.retention today policy backup_times [] sla).weekly = true ∧
     Legacy.satisfied (Legacy.retention today policy backup_times [] sla).monthly = true ∧
     Legacy.satisfied (Legacy.retention today policy backup_times [] sla).yearly = true) ∧
    (Legacy.satisfied (Legacy.retention today policy backup_times [] sla).hourly = true ↔
       Legacy.expectedHourly backup_times today.hour = 0) := by
  have hb : Legacy.retention today policy backup_times [] sla =
      { manual := ⟨Legacy.policyGet policy "manual" 0, 0, 0⟩
        update := ⟨Legacy.policyGet policy "update" 0, 0, 0⟩
        hourly := ⟨Legacy.policyGet policy "hourly" 0,
                   Legacy.expectedHourly backup_times today.hour, 0⟩
        daily := ⟨Legacy.policyGet policy "daily" 0, 0, 0⟩
        weekly := ⟨Legacy.policyGet policy "weekly" 0, 0, 0⟩
        monthly := ⟨Legacy.policyGet policy "monthly" 0, 0, 0⟩
        yearly := ⟨Legacy.policyGet policy "yearly" 0, 0, 0⟩ } := by
    unfold Legacy.retention
    simp only [Legacy.tagCounter, Legacy.oldestSnapshot, List.foldl_nil, sub_self,
               max_daily_snaps_zero, max_weekly_snaps_zero, max_monthly_snaps_zero,
               max_yearly_snaps_zero]
    rw [min_eq_left hd, min_eq_left hw, min_eq_left hm, min_eq_left hy]
  have hhour0 : 0 ≤ Legacy.expectedHourly backup_times today.hour := by
    unfold Legacy.expectedHourly
    exact Int.natCast_nonneg _
  refine ⟨hb, ⟨?_, ?_, ?_, ?_, ?_, ?_⟩, ?_⟩ <;> rw [hb] <;>
    simp [Legacy.satisfied]
  omega

/-- Witness for c2_empty_history_amended at a concrete clock and policy. -/
theorem c2_empty_history_amended_witness :
    Legacy.retention ⟨0, 5⟩ [("daily", 7)] [3] [] ⟨1, 2, 3, 4, 5⟩ =
      { manual := ⟨Legacy.policyGet [("daily", 7)] "manual" 0, 0, 0⟩
        update := ⟨Legacy.policyGet [("daily", 7)] "update" 0, 0, 0⟩
        hourly := ⟨Legacy.policyGet [("daily", 7)] "hourly" 0,
                   Legacy.expectedHourly [3] 5, 0⟩
        daily := ⟨Legacy.policyGet [("daily", 7)] "daily" 0, 0, 0⟩
        weekly := ⟨Legacy.policyGet [("daily", 7)] "weekly" 0, 0, 0⟩
        monthly := ⟨Legacy.policyGet [("daily", 7)] "monthly" 0, 0, 0⟩
        yearly := ⟨Legacy.policyGet [("daily", 7)] "yearly" 0, 0, 0⟩ } ∧
    (Legacy.satisfied (Legacy.retention ⟨0, 5⟩ [("daily", 7)] [3] [] ⟨1, 2, 3, 4, 5⟩).manual = true ∧
     Legacy.satisfied (Legacy.retention ⟨0, 5⟩ [("daily", 7)] [3] [] ⟨1, 2, 3, 4, 5⟩).update = true ∧
     Legacy.satisfied (Legacy.retention ⟨0, 5⟩ [("daily", 7)] [3] [] ⟨1, 2, 3, 4, 5⟩).daily = true ∧
     Legacy.satisfied (Legacy.retention ⟨0, 5⟩ [("daily", 7)] [3] [] ⟨1, 2, 3, 4, 5⟩).weekly = true ∧
     Legacy.satisfied (Legacy.retention ⟨0, 5⟩ [("daily", 7)] [3] [] ⟨1, 2, 3, 4, 5⟩).monthly = true ∧
     Legacy.satisfied (Legacy.retention ⟨0, 5⟩ [("daily", 7)] [3] [] ⟨1, 2, 3, 4, 5⟩).yearly = true) ∧
    (Legacy.satisfied (Legacy.retention ⟨0, 5⟩ [("daily", 7)] [3] [] ⟨1, 2, 3, 4, 5⟩).hourly = true ↔
       Legacy.expectedHourly [3] 5 = 0) :=
  c2_empty_history_amended ⟨0, 5⟩ [("daily", 7)] [3] ⟨1, 2, 3, 4, 5⟩
    (by decide) (by decide) (by decide) (by decide)

/-! ## Claim C3: theoretical maximum counts per period type -/

namespace Legacy

theorem applyTagFound_expected (sla : SlaFound) (b : RetBuckets) (kv : String × Int) :
    (applyTagFound sla b kv).daily.expected = b.daily.expected ∧
    (applyTagFound sla b kv).weekly.expected = b.weekly.expected ∧
    (applyTagFound sla b kv).monthly.expected = b.monthly.expected ∧
    (applyTagFound sla b kv).yearly.expected = b.yearly.expected := by
  unfold applyTagFound
  split_ifs <;> simp

theorem foldl_applyTagFound_expected (sla : SlaFound) :
    ∀ (kvs : List (String × Int)) (b : RetBuckets),
    ((kvs.foldl (applyTagFound sla) b).daily.expected = b.daily.expected) ∧
    ((kvs.foldl (applyTagFound sla) b).weekly.expected = b.weekly.expected) ∧
    ((kvs.foldl (applyTagFound sla) b).monthly.expected = b.monthly.expected) ∧
    ((kvs.foldl (applyTagFound sla) b).yearly.expected = b.yearly.expected) := by
  intro kvs
  induction kvs with
  | nil => intro b; simp
  | cons kv rest ih =>
    intro b
    simp only [List.foldl_cons]
    obtain ⟨h1, h2, h3, h4⟩ := ih (applyTagFound sla b kv)
    obtain ⟨g1, g2, g3, g4⟩ := applyTagFound_expected sla b kv
    exact ⟨h1.trans g1, h2.trans g2, h3.trans g3, h4.trans g4⟩

end Legacy

/-- C3 (counterexample): the theoretical daily maximum is not
floor((now − anchor)/period) and is not forced to 0 below one full period:
at an elapsed time of 64800 seconds (0.75 days, less than one day) the code
computes max_daily_snaps = round(0.75) = 1 while the floor is 0. -/
theorem c3_floor_claim_counterexample :
    Legacy.max_daily_snaps 64800 = 1 ∧
    Int.floor ((64800 : ℚ) / 86400) = 0 ∧
    (64800 : ℚ) < 86400 := by
  refine ⟨?_, by norm_num, by norm_num⟩
  unfold Legacy.max_daily_snaps pyRound
  norm_num

/-- C3 (amended): each theoretical maximum is the nearest integer (ties to
even, Python round) to elapsed/period — not its floor.  The weekly, monthly
and yearly maxima are zeroed only below 7, 30 and 365 elapsed seconds
respectively (not below one full period), and the daily maximum has no such
gate; the daily expected count is the minimum of this maximum and the
configured daily limit, with the anchor being today's timestamp lowered by
every rounded snapshot timestamp. -/
theorem c3_theoretical_max_amended :
    (∀ e : ℚ, NearestTiesEven (e / 86400) (Legacy.max_daily_snaps e)) ∧
    (∀ e : ℚ, 7 ≤ e → NearestTiesEven (e / 604800) (Legacy.max_weekly_snaps e)) ∧
    (∀ e : ℚ, e < 7 → Legacy.max_weekly_snaps e = 0) ∧
    (∀ e : ℚ, 30 ≤ e → NearestTiesEven (e / 2592000) (Legacy.max_monthly_snaps e)) ∧
    (∀ e : ℚ, e < 30 → Legacy.max_monthly_snaps e = 0) ∧
    (∀ e : ℚ, 365 ≤ e → NearestTiesEven (e / 31536000) (Legacy.max_yearly_snaps e)) ∧
    (∀ e : ℚ, e < 365 → Legacy.max_yearly_snaps e = 0) ∧
    (∀ (today : Legacy.Today) (policy : List (String × Int)) (backup_times : List Int)
       (snaps : List Legacy.LSnap) (sla : Legacy.SlaFound),
       (Legacy.retention today policy backup_times snaps sla).daily.expected =
         min (Legacy.max_daily_snaps (today.ts - Legacy.oldestSnapshot today.ts snaps))
             (Legacy.policyGet policy "daily" 0)) := by
  refine ⟨?_, ?_, ?_, ?_, ?_, ?_, ?_, ?_⟩
  · intro e
    unfold Legacy.max_daily_snaps
    exact pyRound_nearest _
  · intro e he
    unfold Legacy.max_weekly_snaps
    rw [if_pos he]
    exact pyRound_nearest _
  · intro e he
    unfold Legacy.max_weekly_snaps
    rw [if_neg (not_le.mpr he)]
  · intro e he
    unfold Legacy.max_monthly_snaps
    rw [if_pos he]
    exact pyRound_nearest _
  · intro e he
    unfold Legacy.max_monthly_snaps
    rw [if_neg (not_le.mpr he)]
  · intro e he
    unfold Legacy.max_yearly_snaps
    rw [if_pos he]
    exact pyRound_nearest _
  · intro e he
    unfold Legacy.max_yearly_snaps
    rw [if_neg (not_le.mpr he)]
  · intro today policy backup_times snaps sla
    unfold Legacy.retention
    exact (Legacy.foldl_applyTagFound_expected sla (Legacy.tagCounter snaps) _).1

/-- Witness for c3_theoretical_max_amended: the weekly maximum at two weeks
of elapsed time is the nearest integer to the week count. -/
theorem c3_theoretical_max_amended_witness :
    NearestTiesEven ((1209600 : ℚ) / 604800) (Legacy.max_weekly_snaps 1209600) :=
  c3_theoretical_max_amended.2.1 1209600 (by decide)
